import Mathlib

/-!
Shallow embedding of the traffic-signal dispatch core of this repository:
the emergency arbitration and dispatch logic of `backend/arduino_controller.py`
(`send_traffic_data` and its helpers) and the Arduino-send section of
`detect_frame` in `backend/main.py`.

Conventions of the embedding:

* Python floats are modelled as rationals; timestamps are rationals.
* Python dicts used as keyed tables are modelled as insertion-ordered
  association lists (`List (Nat × α)`): assignment replaces in place when the
  key exists and appends otherwise, deletion filters, and iteration follows
  list order — exactly the observable behaviour of a Python dict.
* The source stores the proximity score as the square root of the squared
  pixel distance and only ever compares scores with each other.  Since the
  square root is strictly monotone on nonnegative reals, records here store
  the squared distance (`distanceSq`) and every comparison agrees with the
  source; the lemma `calculate_distance_lt_iff` makes the correspondence
  precise, and `calculate_distance_from_camera` exposes the actual
  (real-valued) score of the source.
* Side effects are reified: enqueued `UPDATE` commands and `time.sleep`
  calls become an `Event` trace; the non-blocking dispatch lock and the
  serial-connection flag of `ArduinoController` become boolean inputs.
-/

/-- ASCII lowercase of one character, the effect of Python `str.lower` on the
ASCII class labels handled by the controller. -/
def lowerChar (c : Char) : Char :=
  if 65 ≤ c.toNat ∧ c.toNat ≤ 90 then Char.ofNat (c.toNat + 32) else c

/-- Python `str.lower` on ASCII strings. -/
def strLower (s : String) : String := ⟨s.data.map lowerChar⟩

/-- Character-list prefix test used by the substring search. -/
def listHasPre : List Char → List Char → Bool
  | [], _ => true
  | _ :: _, [] => false
  | n :: ns, h :: hs => n == h && listHasPre ns hs

/-- Substring occurrence test on character lists. -/
def listHasSub (needle : List Char) : List Char → Bool
  | [] => listHasPre needle []
  | h :: hs => listHasPre needle (h :: hs) || listHasSub needle hs

/-- Python `needle in hay` on strings. -/
def strContains (hay needle : String) : Bool := listHasSub needle.data hay.data

/-- One bounding-box detection as received in the per-road payloads.  Fields
are optional because the Python code reads them with `dict.get` defaults:
`class` falls back to `class_name`, coordinates default to the frame
center. -/
structure Detection where
  cls : Option String
  class_name : Option String
  x : Option ℚ
  y : Option ℚ
  width : Option ℚ
  height : Option ℚ
deriving DecidableEq

/-- Resolved, lowercased class label of a detection, as computed in
`send_traffic_data`: the `class` field, else the `class_name` field, else the
empty string, lowercased. -/
def detClass (d : Detection) : String := strLower (d.cls.getD (d.class_name.getD ""))

/-- The emergency class keywords of `send_traffic_data`. -/
def emergencyTypes : List String :=
  ["emergency", "ambulance", "fire truck", "police", "emergency-vehicle",
   "emergency vehicle", "firetruck", "fire_truck"]

/-- First detection whose class label contains one of the emergency keywords
(the emergency-vehicle search loop of `send_traffic_data`). -/
def findEmergencyVehicle (detections : List Detection) : Option Detection :=
  detections.find? (fun d => emergencyTypes.any (fun t => strContains (detClass d) t))

/-- Squared pixel distance from the bounding-box center to the camera
reference point (320, 0) of the 640x480 frame, following
`_calculate_distance_from_camera`: missing coordinates default to 0.5, and
the coordinates are scaled into the frame only when neither exceeds 1. -/
def distSqFromCamera (d : Detection) : ℚ :=
  let x := d.x.getD (1/2)
  let y := d.y.getD (1/2)
  let image_width : ℚ := 640
  let image_height : ℚ := 480
  let center_x := if 1 < x ∨ 1 < y then x else x * image_width
  let center_y := if 1 < x ∨ 1 < y then y else y * image_height
  let camera_x := image_width / 2
  let camera_y : ℚ := 0
  (center_x - camera_x) ^ 2 + (center_y - camera_y) ^ 2

/-- The proximity score returned by `_calculate_distance_from_camera`: the
Euclidean pixel distance itself. -/
noncomputable def calculate_distance_from_camera (d : Detection) : ℝ :=
  Real.sqrt (distSqFromCamera d)

/-- Python dict assignment on an insertion-ordered association list: replace
in place when the key exists, append otherwise. -/
def dictSet {α : Type} : List (Nat × α) → Nat → α → List (Nat × α)
  | [], k, v => [(k, v)]
  | p :: ps, k, v => if p.1 == k then (k, v) :: ps else p :: dictSet ps k v

/-- Python `del d[k]`, a no-op when the key is absent (matching the guarded
deletes in the source). -/
def dictDel {α : Type} (em : List (Nat × α)) (k : Nat) : List (Nat × α) :=
  em.filter (fun p => p.1 != k)

/-- Python `d.get(k)`. -/
def dictGet? {α : Type} (em : List (Nat × α)) (k : Nat) : Option α :=
  (em.find? (fun p => p.1 == k)).map Prod.snd

/-- Keys of the table, in iteration order. -/
def dictKeys {α : Type} (em : List (Nat × α)) : List Nat := em.map Prod.fst

/-- One entry of the lane batch handed to `send_traffic_data`.  The id is
optional because the source reads it with `road.get(..)` and default 1. -/
structure Road where
  id : Option Nat
  detections : List Detection
  hasEmergencyVehicle : Bool
deriving DecidableEq

/-- The effective road id: `road.get` with default 1. -/
def roadId (r : Road) : Nat := r.id.getD 1

/-- One value of the `active_emergencies` table.  The source stores the
distance (a square root); `distanceSq` stores its square, see the module
comment. -/
structure EmergencyRecord where
  detections : List Detection
  timestamp : ℚ
  distanceSq : ℚ
  emergency_vehicle : Detection
deriving DecidableEq

/-- One element of the `emergency_lanes` list built in `send_traffic_data`
for arbitration. -/
structure EmergencyLane where
  id : Nat
  detections : List Detection
  distanceSq : ℚ
deriving DecidableEq

/-- One element of the list returned by `_prioritize_emergency_vehicles`.
Print-only fields of the source dict are omitted. -/
structure Prioritized where
  id : Nat
  score : ℚ
  traffic_density : Nat
deriving DecidableEq

/-- Observable side effects of a dispatch cycle: an enqueued `UPDATE`
command, or a `time.sleep` delay (in seconds). -/
inductive Event where
  | update (road_id : Nat) (vehicle_count : Nat) (has_emergency : Bool)
  | sleep (seconds : ℚ)
deriving DecidableEq

/-- Is the event an enqueued `UPDATE` command? -/
def isUpdateEvent : Event → Bool
  | Event.update _ _ _ => true
  | Event.sleep _ => false

/-- The mutable `emergency_vehicle_state` table relevant to arbitration. -/
structure EmergencyState where
  active_emergencies : List (Nat × EmergencyRecord)
deriving DecidableEq

/-- Result of one `send_traffic_data` call: the table afterwards, the event
trace, and the boolean return value. -/
structure DispatchResult where
  state : EmergencyState
  events : List Event
  ok : Bool
deriving DecidableEq

/-- Stable insertion for the stable sort below. -/
def insertLe {α : Type} (le : α → α → Bool) (x : α) : List α → List α
  | [] => [x]
  | y :: ys => if le x y then x :: y :: ys else y :: insertLe le x ys

/-- Stable sort (insertion sort): the behaviour of Python `sorted` for a
total preorder comparison. -/
def sortLe {α : Type} (le : α → α → Bool) : List α → List α
  | [] => []
  | x :: xs => insertLe le x (sortLe le xs)

/-- `ArduinoController.update_road_data`: enqueue one `UPDATE` command and
report success when connected, otherwise enqueue nothing and report
failure. -/
def update_road_data (connected : Bool) (road_id vehicle_count : Nat)
    (has_emergency : Bool) : List Event × Bool :=
  if connected then ([Event.update road_id vehicle_count has_emergency], true)
  else ([], false)

/-- The plain dispatch loop of `send_traffic_data`: one update per road, in
the order given. -/
def dispatchAll (connected : Bool) (roads : List Road) : List Event :=
  roads.foldl (fun evs road =>
    evs ++ (update_road_data connected (roadId road) road.detections.length
      road.hasEmergencyVehicle).1) []

/-- The priority dispatch loop of `send_traffic_data`: non-priority emergency
roads get a 0.1 s sleep before their update. -/
def dispatchPriority (connected : Bool) (priority_lane : Nat)
    (roads : List Road) : List Event :=
  roads.foldl (fun evs road =>
    let road_id := roadId road
    let is_emergency := road.hasEmergencyVehicle
    let evs1 := if is_emergency ∧ ¬(road_id = priority_lane)
      then evs ++ [Event.sleep (1/10)] else evs
    evs1 ++ (update_road_data connected road_id road.detections.length
      is_emergency).1) []

/-- Membership in the only perpendicular pair (1, 3). -/
def inPair (x : Nat) : Bool := x == 1 || x == 3

/-- `_can_emergency_vehicles_cross_simultaneously`: false unless exactly two
lanes are given, true when both lane ids lie in the pair (1, 3). -/
def can_emergency_vehicles_cross_simultaneously
    (emergency_lanes : List EmergencyLane) : Bool :=
  if emergency_lanes.length != 2 then false
  else match emergency_lanes with
    | a :: b :: _ => inPair a.id && inPair b.id
    | _ => false

/-- The `emergency_lanes` list built in `send_traffic_data` from the
active-emergency table: one entry per record, in table order. -/
def emergencyLanesOf (em : List (Nat × EmergencyRecord)) : List EmergencyLane :=
  em.map (fun p => ⟨p.1, p.2.detections, p.2.distanceSq⟩)

/-- `_prioritize_emergency_vehicles`: look each lane up in the table, fall
back to the large constant when absent (9999 in distance scale, hence its
square here), and stable-sort ascending by score.  The source function also
receives the full batch but never reads it. -/
def prioritize_emergency_vehicles (em : List (Nat × EmergencyRecord))
    (emergency_lanes : List EmergencyLane) : List Prioritized :=
  let prioritized := emergency_lanes.map (fun lane =>
    match dictGet? em lane.id with
    | some ed => (⟨lane.id, ed.distanceSq, ed.detections.length⟩ : Prioritized)
    | none => (⟨lane.id, 9999 * 9999, lane.detections.length⟩ : Prioritized))
  sortLe (fun a b => decide (a.score ≤ b.score)) prioritized

/-- Head of the priority order (`prioritized_lanes[0]`); the list is never
empty where the source indexes it. -/
def priorityLaneOf (em : List (Nat × EmergencyRecord)) : Nat :=
  match prioritize_emergency_vehicles em (emergencyLanesOf em) with
  | p :: _ => p.id
  | [] => 0

/-- The Python sort key of the default dispatch branch:
`(-int(hasEmergencyVehicle), -len(detections))`. -/
def pyKey (r : Road) : ℤ × ℤ :=
  (-(if r.hasEmergencyVehicle then 1 else 0), -(r.detections.length : ℤ))

/-- Lexicographic comparison of the Python sort keys, i.e. the order in which
Python `sorted` arranges the default branch. -/
def pyKeyLe (a b : Road) : Bool :=
  decide ((pyKey a).1 < (pyKey b).1 ∨
    ((pyKey a).1 = (pyKey b).1 ∧ (pyKey a).2 ≤ (pyKey b).2))

/-- Ordering relation written from the words of the specification: emergency
lanes precede non-emergency lanes, ties break by vehicle count descending.
It is compared with the key order `pyKeyLe` actually used by the source. -/
def specLe (a b : Road) : Bool :=
  (a.hasEmergencyVehicle && !b.hasEmergencyVehicle) ||
  ((a.hasEmergencyVehicle == b.hasEmergencyVehicle) &&
    decide (b.detections.length ≤ a.detections.length))

/-- One iteration of the emergency-table update loop of `send_traffic_data`:
refresh or create the record when the road reports an emergency and a
matching detection exists, delete it when the road reports none, leave the
table unchanged otherwise. -/
def processRoad (current_time : ℚ) (em : List (Nat × EmergencyRecord))
    (road : Road) : List (Nat × EmergencyRecord) :=
  if road.hasEmergencyVehicle then
    match findEmergencyVehicle road.detections with
    | some v =>
        dictSet em (roadId road) ⟨road.detections, current_time, distSqFromCamera v, v⟩
    | none => em
  else dictDel em (roadId road)

/-- The whole emergency-table update loop over the batch. -/
def updateEmergencyState (current_time : ℚ) (data : List Road)
    (em : List (Nat × EmergencyRecord)) : List (Nat × EmergencyRecord) :=
  data.foldl (processRoad current_time) em

/-- The branch structure of `send_traffic_data` after the table update: more
than one record triggers the simultaneity check and, failing it, the
priority dispatch; otherwise the batch is stable-sorted by the default
key. -/
def arbitrateAndDispatch (connected : Bool)
    (em1 : List (Nat × EmergencyRecord)) (data : List Road) : List Event :=
  if 1 < em1.length then
    if can_emergency_vehicles_cross_simultaneously (emergencyLanesOf em1) then
      dispatchAll connected data
    else
      dispatchPriority connected (priorityLaneOf em1) data
  else
    dispatchAll connected (sortLe pyKeyLe data)

/-- `send_traffic_data`: return false at once when the non-blocking lock is
held; otherwise update the table, arbitrate and dispatch, expire records not
refreshed for more than 10 seconds, and return true. -/
def send_traffic_data (connected lockBusy : Bool) (current_time : ℚ)
    (data : List Road) (st : EmergencyState) : DispatchResult :=
  if lockBusy then ⟨st, [], false⟩
  else
    let em1 := updateEmergencyState current_time data st.active_emergencies
    ⟨⟨em1.filter (fun p => decide (current_time - p.2.timestamp ≤ 10))⟩,
      arbitrateAndDispatch connected em1 data, true⟩

/-- Mutable state of the Arduino-send section of `detect_frame` in
`backend/main.py`: the emergency-override flags and the per-road throttle
tables. -/
structure FrameState where
  override_active : Bool
  override_lanes : List Nat
  last_arduino_send : List (Nat × ℚ)
  last_sent_detections : List (Nat × List Detection)
deriving DecidableEq

/-- The emergency test `detect_frame` applies to its own detection dicts. -/
def frameHasEmergency (detections : List Detection) : Bool :=
  detections.any (fun d => strLower (d.cls.getD "") == "emergency-vehicle")

/-- The Arduino-send section of `detect_frame`: override bookkeeping, the
early return for non-override lanes while the override is active, the
immediate clear when a road drops to zero detections, and the 2 s per-road
throttle.  The returned list holds the batches passed to `send_traffic_data`,
one per call actually made (calls are made only while connected). -/
def detect_frame_dispatch (connected : Bool) (st : FrameState) (road_id : Nat)
    (detections : List Detection) (now_time : ℚ) :
    FrameState × List (List Road) :=
  let has_emergency := frameHasEmergency detections
  let lanes0 := st.override_lanes
  let al : Bool × List Nat :=
    if has_emergency then
      (true, if road_id ∈ lanes0 then lanes0 else lanes0 ++ [road_id])
    else if road_id ∈ lanes0 then
      let lanes1 := lanes0.filter (fun l => l != road_id)
      (if lanes1.isEmpty then false else st.override_active, lanes1)
    else (st.override_active, lanes0)
  let active := al.1
  let lanes := al.2
  if active ∧ ¬(road_id ∈ lanes) then
    (⟨active, lanes, st.last_arduino_send, st.last_sent_detections⟩, [])
  else
    let road_data : List Road := [⟨some road_id, detections, has_emergency⟩]
    let last_send := (dictGet? st.last_arduino_send road_id).getD 0
    let cleared := detections.isEmpty &&
      (match dictGet? st.last_sent_detections road_id with
       | some l => !l.isEmpty
       | none => false)
    if cleared then
      let road_data_clear : List Road := [⟨some road_id, [], false⟩]
      let calls :=
        if active then
          lanes.foldl (fun acc _ =>
            acc ++ (if connected then [road_data_clear] else [])) []
        else if connected then [road_data_clear] else []
      (⟨active, lanes, dictSet st.last_arduino_send road_id now_time,
        dictSet st.last_sent_detections road_id []⟩, calls)
    else if active ∨ 2 ≤ now_time - last_send then
      let calls :=
        if active then
          lanes.foldl (fun acc _ =>
            acc ++ (if connected then [road_data] else [])) []
        else if connected then [road_data] else []
      (⟨active, lanes, dictSet st.last_arduino_send road_id now_time,
        dictSet st.last_sent_detections road_id detections⟩, calls)
    else
      (⟨active, lanes, st.last_arduino_send, st.last_sent_detections⟩, [])

/-- The event generated for one road by the dispatch loops. -/
def updEvent (r : Road) : Event :=
  Event.update (roadId r) r.detections.length r.hasEmergencyVehicle

/-! Generic lemmas about the stable insertion sort. -/

theorem insertLe_perm {α : Type} (le : α → α → Bool) (x : α) (l : List α) :
    List.Perm (insertLe le x l) (x :: l) := by
  induction l with
  | nil => simp [insertLe]
  | cons y ys ih =>
    rw [insertLe]
    by_cases h : le x y = true
    · rw [if_pos h]
    · rw [if_neg h]
      exact (ih.cons y).trans (List.Perm.swap x y ys)

theorem sortLe_perm {α : Type} (le : α → α → Bool) (l : List α) :
    List.Perm (sortLe le l) l := by
  induction l with
  | nil => simp [sortLe]
  | cons x xs ih => exact (insertLe_perm le x (sortLe le xs)).trans (ih.cons x)

theorem mem_insertLe {α : Type} (le : α → α → Bool) (x : α) (l : List α) (a : α)
    (h : a ∈ insertLe le x l) : a = x ∨ a ∈ l := by
  have := (insertLe_perm le x l).mem_iff.mp h
  simpa using this

theorem pairwise_insertLe {α : Type} (le : α → α → Bool)
    (htot : ∀ a b, le a b = false → le b a = true)
    (htrans : ∀ a b c, le a b = true → le b c = true → le a c = true)
    (x : α) (l : List α) (h : List.Pairwise (fun a b => le a b = true) l) :
    List.Pairwise (fun a b => le a b = true) (insertLe le x l) := by
  induction l with
  | nil => simp [insertLe]
  | cons y ys ih =>
    rw [insertLe]
    rw [List.pairwise_cons] at h
    by_cases hxy : le x y = true
    · rw [if_pos hxy]
      refine List.Pairwise.cons ?_ (List.Pairwise.cons h.1 h.2)
      intro z hz
      rcases List.mem_cons.mp hz with hz | hz
      · exact hz ▸ hxy
      · exact htrans x y z hxy (h.1 z hz)
    · rw [if_neg hxy]
      refine List.Pairwise.cons ?_ (ih h.2)
      intro z hz
      rcases mem_insertLe le x ys z hz with hz | hz
      · exact hz ▸ htot x y (Bool.not_eq_true _ ▸ hxy)
      · exact h.1 z hz

theorem sortLe_pairwise {α : Type} (le : α → α → Bool)
    (htot : ∀ a b, le a b = false → le b a = true)
    (htrans : ∀ a b c, le a b = true → le b c = true → le a c = true)
    (l : List α) : List.Pairwise (fun a b => le a b = true) (sortLe le l) := by
  induction l with
  | nil => simp [sortLe]
  | cons x xs ih => exact pairwise_insertLe le htot htrans x (sortLe le xs) ih

theorem insertLe_congr {α : Type} (le1 le2 : α → α → Bool)
    (h : ∀ a b, le1 a b = le2 a b) (x : α) (l : List α) :
    insertLe le1 x l = insertLe le2 x l := by
  induction l with
  | nil => rfl
  | cons y ys ih => rw [insertLe, insertLe, h x y, ih]

theorem sortLe_congr {α : Type} (le1 le2 : α → α → Bool)
    (h : ∀ a b, le1 a b = le2 a b) (l : List α) :
    sortLe le1 l = sortLe le2 l := by
  induction l with
  | nil => rfl
  | cons x xs ih => rw [sortLe, sortLe, ih, insertLe_congr le1 le2 h]

theorem insertLe_filter_pos {α κ : Type} [DecidableEq κ] (le : α → α → Bool)
    (key : α → κ) (hk : ∀ a b, key a = key b → le a b = true)
    (x : α) (l : List α) (k : κ) (hx : key x = k) :
    (insertLe le x l).filter (fun a => decide (key a = k)) =
      x :: l.filter (fun a => decide (key a = k)) := by
  induction l with
  | nil => simp [insertLe, hx]
  | cons y ys ih =>
    rw [insertLe]
    by_cases hxy : le x y = true
    · rw [if_pos hxy]
      simp [List.filter_cons, hx]
    · rw [if_neg hxy]
      have hyk : ¬(key y = k) := by
        intro hkk
        exact hxy (hk x y (by rw [hx, hkk]))
      simp only [List.filter_cons, decide_eq_true_eq]
      rw [if_neg hyk, ih]
      simp [List.filter_cons, hyk]

theorem insertLe_filter_neg {α κ : Type} [DecidableEq κ] (le : α → α → Bool)
    (key : α → κ) (x : α) (l : List α) (k : κ) (hx : ¬(key x = k)) :
    (insertLe le x l).filter (fun a => decide (key a = k)) =
      l.filter (fun a => decide (key a = k)) := by
  induction l with
  | nil => simp [insertLe, hx]
  | cons y ys ih =>
    rw [insertLe]
    by_cases hxy : le x y = true
    · rw [if_pos hxy]
      simp [List.filter_cons, hx]
    · rw [if_neg hxy]
      simp only [List.filter_cons]
      rw [ih]

theorem sortLe_filter_stable {α κ : Type} [DecidableEq κ] (le : α → α → Bool)
    (key : α → κ) (hk : ∀ a b, key a = key b → le a b = true)
    (l : List α) (k : κ) :
    (sortLe le l).filter (fun a => decide (key a = k)) =
      l.filter (fun a => decide (key a = k)) := by
  induction l with
  | nil => rfl
  | cons x xs ih =>
    rw [sortLe]
    by_cases hx : key x = k
    · rw [insertLe_filter_pos le key hk x (sortLe le xs) k hx, ih]
      simp [List.filter_cons, hx]
    · rw [insertLe_filter_neg le key x (sortLe le xs) k hx, ih]
      simp [List.filter_cons, hx]

theorem sortLe_pair {α : Type} (le : α → α → Bool) (a b : α) :
    sortLe le [a, b] = if le a b then [a, b] else [b, a] := by
  by_cases h : le a b = true
  · simp [sortLe, insertLe, h]
  · simp [sortLe, insertLe, h]

/-! Generic lemmas about the association-list dict. -/

theorem dictGet?_nil {α : Type} (L : Nat) : dictGet? ([] : List (Nat × α)) L = none := rfl

theorem dictGet?_cons {α : Type} (p : Nat × α) (ps : List (Nat × α)) (L : Nat) :
    dictGet? (p :: ps) L = if p.1 == L then some p.2 else dictGet? ps L := by
  cases h : p.1 == L <;> simp [dictGet?, List.find?, h]

theorem dictGet?_dictSet {α : Type} (em : List (Nat × α)) (k : Nat) (v : α) (L : Nat) :
    dictGet? (dictSet em k v) L = if L = k then some v else dictGet? em L := by
  induction em with
  | nil =>
    rw [dictSet, dictGet?_cons, dictGet?_nil]
    by_cases h : L = k
    · simp [h]
    · have hk : (k == L) = false := by simpa using Ne.symm h
      simp [hk, h]
  | cons p ps ih =>
    rw [dictSet]
    by_cases hpk : p.1 = k
    · rw [if_pos (by simpa using hpk), dictGet?_cons, dictGet?_cons]
      by_cases h : L = k
      · simp [h]
      · have h1 : (k == L) = false := by simpa using Ne.symm h
        have h2 : (p.1 == L) = false := by simp [hpk]; omega
        simp [h1, h2, h]
    · rw [if_neg (by simpa using hpk), dictGet?_cons, dictGet?_cons, ih]
      by_cases hpl : p.1 = L
      · have : ¬ L = k := by omega
        simp [hpl, this]
      · have h2 : (p.1 == L) = false := by simpa using hpl
        simp [h2]

theorem dictGet?_dictDel {α : Type} (em : List (Nat × α)) (k L : Nat) :
    dictGet? (dictDel em k) L = if L = k then none else dictGet? em L := by
  induction em with
  | nil => by_cases h : L = k <;> simp [dictDel, dictGet?_nil, h]
  | cons p ps ih =>
    rw [dictDel, List.filter_cons]
    by_cases hpk : p.1 = k
    · have hb : (p.1 != k) = false := by simp [hpk]
      rw [hb]
      simp only [Bool.false_eq_true, if_false]
      rw [show List.filter (fun q => q.1 != k) ps = dictDel ps k from rfl, ih]
      by_cases h : L = k
      · simp [h]
      · have h2 : (p.1 == L) = false := by simp [hpk]; omega
        simp [h, dictGet?_cons, h2]
    · have hb : (p.1 != k) = true := by simp [hpk]
      rw [hb]
      simp only [if_true]
      rw [dictGet?_cons,
        show List.filter (fun q => q.1 != k) ps = dictDel ps k from rfl, ih,
        dictGet?_cons]
      by_cases hpl : p.1 = L
      · have : ¬ L = k := by omega
        simp [hpl, this]
      · have h2 : (p.1 == L) = false := by simpa using hpl
        simp [h2]

theorem dictGet?_eq_none_of_not_mem {α : Type} (em : List (Nat × α)) (L : Nat)
    (h : ¬ L ∈ dictKeys em) : dictGet? em L = none := by
  induction em with
  | nil => rfl
  | cons p ps ih =>
    rw [dictGet?_cons]
    simp only [dictKeys, List.map_cons, List.mem_cons] at h
    push_neg at h
    have h2 : (p.1 == L) = false := by simpa using Ne.symm h.1
    simpa [h2] using ih (by simpa [dictKeys] using h.2)

theorem dictKeys_filter_subset {α : Type} (pred : Nat × α → Bool) (em : List (Nat × α)) :
    ∀ x ∈ dictKeys (em.filter pred), x ∈ dictKeys em := by
  intro x hx
  simp only [dictKeys, List.mem_map] at hx ⊢
  obtain ⟨p, hp, rfl⟩ := hx
  exact ⟨p, List.mem_of_mem_filter hp, rfl⟩

theorem dictGet?_filterVals {α : Type} (pred : α → Bool) (em : List (Nat × α))
    (hnd : (dictKeys em).Nodup) (L : Nat) :
    dictGet? (em.filter (fun p => pred p.2)) L =
      (dictGet? em L).bind (fun v => if pred v then some v else none) := by
  induction em with
  | nil => rfl
  | cons p ps ih =>
    simp only [dictKeys, List.map_cons, List.nodup_cons] at hnd
    have ihp := ih hnd.2
    rw [List.filter_cons, dictGet?_cons]
    by_cases hpl : p.1 = L
    · have hb : (p.1 == L) = true := by simpa using hpl
      rw [hb]
      by_cases hpred : pred p.2 = true
      · simp [hpred, dictGet?_cons, hb]
      · have hLnot : ¬ L ∈ dictKeys (ps.filter (fun q => pred q.2)) := by
          intro hmem
          exact hnd.1 (hpl ▸ dictKeys_filter_subset _ ps L hmem)
        cases hp2 : pred p.2
        · simp only [Bool.false_eq_true, if_false]
          rw [dictGet?_eq_none_of_not_mem _ L hLnot]
          simp [hp2]
        · exact absurd hp2 hpred
    · have hb : (p.1 == L) = false := by simpa using hpl
      rw [hb]
      cases hp2 : pred p.2
      · simpa using ihp
      · simp only [if_true]
        rw [dictGet?_cons, hb]
        simpa using ihp

theorem dictKeys_dictSet_subset {α : Type} (em : List (Nat × α)) (k : Nat) (v : α) :
    ∀ x ∈ dictKeys (dictSet em k v), x ∈ dictKeys em ∨ x = k := by
  induction em with
  | nil => intro x hx; simp [dictSet, dictKeys] at hx; simp [hx]
  | cons p ps ih =>
    intro x hx
    rw [dictSet] at hx
    by_cases hpk : p.1 = k
    · rw [if_pos (by simpa using hpk)] at hx
      simp only [dictKeys, List.map_cons, List.mem_cons] at hx ⊢
      rcases hx with hx | hx
      · exact Or.inr hx
      · exact Or.inl (Or.inr hx)
    · rw [if_neg (by simpa using hpk)] at hx
      simp only [dictKeys, List.map_cons, List.mem_cons] at hx ⊢
      rcases hx with hx | hx
      · exact Or.inl (Or.inl hx)
      · rcases ih x hx with h | h
        · exact Or.inl (Or.inr h)
        · exact Or.inr h

theorem dictKeys_dictSet_nodup {α : Type} (em : List (Nat × α)) (k : Nat) (v : α)
    (hnd : (dictKeys em).Nodup) : (dictKeys (dictSet em k v)).Nodup := by
  induction em with
  | nil => simp [dictSet, dictKeys]
  | cons p ps ih =>
    simp only [dictKeys, List.map_cons, List.nodup_cons] at hnd
    rw [dictSet]
    by_cases hpk : p.1 = k
    · rw [if_pos (by simpa using hpk)]
      simp only [dictKeys, List.map_cons, List.nodup_cons]
      exact ⟨by rw [← hpk]; exact hnd.1, hnd.2⟩
    · rw [if_neg (by simpa using hpk)]
      simp only [dictKeys, List.map_cons, List.nodup_cons]
      refine ⟨?_, ih hnd.2⟩
      intro hmem
      rcases dictKeys_dictSet_subset ps k v p.1 hmem with h | h
      · exact hnd.1 h
      · exact hpk h

theorem dictKeys_dictDel_nodup {α : Type} (em : List (Nat × α)) (k : Nat)
    (hnd : (dictKeys em).Nodup) : (dictKeys (dictDel em k)).Nodup := by
  have hsub : (dictDel em k).Sublist em := List.filter_sublist em
  exact (hsub.map Prod.fst).nodup hnd

/-! Per-lane characterization of the emergency-table update. -/

/-- The effect of one batch entry on the record of its own lane. -/
def laneCore (current_time : ℚ) (acc : Option EmergencyRecord) (road : Road) :
    Option EmergencyRecord :=
  if road.hasEmergencyVehicle then
    match findEmergencyVehicle road.detections with
    | some v => some ⟨road.detections, current_time, distSqFromCamera v, v⟩
    | none => acc
  else none

/-- The effect of one batch entry on the record of lane `L`. -/
def laneStep (current_time : ℚ) (L : Nat) (acc : Option EmergencyRecord)
    (road : Road) : Option EmergencyRecord :=
  if roadId road == L then laneCore current_time acc road else acc

theorem dictGet?_processRoad (t : ℚ) (em : List (Nat × EmergencyRecord))
    (road : Road) (L : Nat) :
    dictGet? (processRoad t em road) L = laneStep t L (dictGet? em L) road := by
  rw [processRoad, laneStep, laneCore]
  by_cases hid : roadId road = L
  · have hb : (roadId road == L) = true := by simpa using hid
    rw [hb, if_pos rfl]
    by_cases hem : road.hasEmergencyVehicle = true
    · rw [if_pos hem, if_pos hem]
      cases findEmergencyVehicle road.detections with
      | some v => rw [dictGet?_dictSet]; simp [hid]
      | none => rfl
    · rw [if_neg hem, if_neg hem, dictGet?_dictDel]
      simp [hid]
  · have hb : (roadId road == L) = false := by simpa using hid
    rw [hb]
    simp only [Bool.false_eq_true, if_false]
    by_cases hem : road.hasEmergencyVehicle = true
    · rw [if_pos hem]
      cases findEmergencyVehicle road.detections with
      | some v => rw [dictGet?_dictSet]; simp [Ne.symm hid]
      | none => rfl
    · rw [if_neg hem, dictGet?_dictDel]
      simp [Ne.symm hid]

theorem dictGet?_updateEmergencyState (t : ℚ) (data : List Road)
    (em : List (Nat × EmergencyRecord)) (L : Nat) :
    dictGet? (updateEmergencyState t data em) L =
      data.foldl (laneStep t L) (dictGet? em L) := by
  induction data generalizing em with
  | nil => rfl
  | cons r rs ih =>
    rw [updateEmergencyState, List.foldl_cons, List.foldl_cons,
      show List.foldl (processRoad t) (processRoad t em r) rs =
        updateEmergencyState t rs (processRoad t em r) from rfl,
      ih, dictGet?_processRoad]

theorem foldl_laneStep_filter (t : ℚ) (L : Nat) (data : List Road)
    (o : Option EmergencyRecord) :
    data.foldl (laneStep t L) o =
      (data.filter (fun x => roadId x == L)).foldl (laneCore t) o := by
  induction data generalizing o with
  | nil => rfl
  | cons r rs ih =>
    rw [List.foldl_cons, List.filter_cons]
    by_cases h : roadId r = L
    · have hb : (roadId r == L) = true := by simpa using h
      rw [hb, if_pos rfl, List.foldl_cons, ih, laneStep, hb, if_pos rfl]
    · have hb : (roadId r == L) = false := by simpa using h
      rw [hb]
      simp only [Bool.false_eq_true, if_false]
      rw [ih, laneStep, hb]
      simp only [Bool.false_eq_true, if_false]

theorem nodup_processRoad (t : ℚ) (em : List (Nat × EmergencyRecord)) (road : Road)
    (hnd : (dictKeys em).Nodup) : (dictKeys (processRoad t em road)).Nodup := by
  rw [processRoad]
  by_cases hem : road.hasEmergencyVehicle = true
  · rw [if_pos hem]
    cases findEmergencyVehicle road.detections with
    | some v => exact dictKeys_dictSet_nodup em _ _ hnd
    | none => exact hnd
  · rw [if_neg hem]
    exact dictKeys_dictDel_nodup em _ hnd

theorem nodup_updateEmergencyState (t : ℚ) (data : List Road)
    (em : List (Nat × EmergencyRecord)) (hnd : (dictKeys em).Nodup) :
    (dictKeys (updateEmergencyState t data em)).Nodup := by
  induction data generalizing em with
  | nil => exact hnd
  | cons r rs ih =>
    rw [updateEmergencyState, List.foldl_cons]
    exact ih (processRoad t em r) (nodup_processRoad t em r hnd)

/-! Lemmas about the dispatch loops. -/

theorem dispatchAll_true_aux (roads : List Road) :
    ∀ init : List Event,
      roads.foldl (fun evs road =>
        evs ++ (update_road_data true (roadId road) road.detections.length
          road.hasEmergencyVehicle).1) init = init ++ roads.map updEvent := by
  induction roads with
  | nil => intro init; simp
  | cons r rs ih =>
    intro init
    rw [List.foldl_cons, ih, List.map_cons]
    simp [update_road_data, updEvent]

theorem dispatchAll_true (roads : List Road) :
    dispatchAll true roads = roads.map updEvent := by
  simpa using dispatchAll_true_aux roads []

theorem dispatchAll_false (roads : List Road) : dispatchAll false roads = [] := by
  have aux : ∀ init : List Event,
      roads.foldl (fun evs road =>
        evs ++ (update_road_data false (roadId road) road.detections.length
          road.hasEmergencyVehicle).1) init = init := by
    induction roads with
    | nil => intro init; rfl
    | cons r rs ih =>
      intro init
      rw [List.foldl_cons]
      exact (ih _).trans (by simp [update_road_data])
  simpa using aux []

theorem dispatchPriority_false_no_update (p : Nat) (roads : List Road) :
    (dispatchPriority false p roads).filter isUpdateEvent = [] := by
  have aux : ∀ init : List Event,
      (roads.foldl (fun evs road =>
        let road_id := roadId road
        let is_emergency := road.hasEmergencyVehicle
        let evs1 := if is_emergency ∧ ¬(road_id = p)
          then evs ++ [Event.sleep (1/10)] else evs
        evs1 ++ (update_road_data false road_id road.detections.length
          is_emergency).1) init).filter isUpdateEvent =
        init.filter isUpdateEvent := by
    induction roads with
    | nil => intro init; rfl
    | cons r rs ih =>
      intro init
      rw [List.foldl_cons, ih]
      by_cases h : r.hasEmergencyVehicle = true ∧ ¬(roadId r = p)
      · simp [h, update_road_data, List.filter_append, isUpdateEvent]
      · simp [h, update_road_data, List.filter_append, isUpdateEvent]
  simpa [dispatchPriority] using aux []

/-! The default-branch ordering: the Python key order coincides with the
relation written from the specification, and is a total transitive
preorder. -/

theorem pyKeyLe_eq_specLe (a b : Road) : pyKeyLe a b = specLe a b := by
  rw [Bool.eq_iff_iff]
  cases ha : a.hasEmergencyVehicle <;> cases hb : b.hasEmergencyVehicle <;>
    simp [pyKeyLe, specLe, pyKey, ha, hb]

theorem specLe_total (a b : Road) (h : specLe a b = false) : specLe b a = true := by
  cases ha : a.hasEmergencyVehicle <;> cases hb : b.hasEmergencyVehicle <;>
    simp [specLe, ha, hb] at h ⊢ <;> omega

theorem specLe_trans (a b c : Road) (hab : specLe a b = true)
    (hbc : specLe b c = true) : specLe a c = true := by
  cases ha : a.hasEmergencyVehicle <;> cases hb : b.hasEmergencyVehicle <;>
    cases hc : c.hasEmergencyVehicle <;>
    simp [specLe, ha, hb, hc] at hab hbc ⊢ <;> omega

theorem specLe_of_key_eq (a b : Road)
    (h : (a.hasEmergencyVehicle, a.detections.length) =
      (b.hasEmergencyVehicle, b.detections.length)) : specLe a b = true := by
  rw [Prod.mk.injEq] at h
  simp [specLe, h.1, h.2]

/-! The squared-distance encoding is faithful: comparisons of the real
scores of the source agree with comparisons of the stored squares. -/

theorem distSqFromCamera_nonneg (d : Detection) : 0 ≤ distSqFromCamera d := by
  rw [distSqFromCamera]
  positivity

theorem calculate_distance_lt_iff (d1 d2 : Detection) :
    calculate_distance_from_camera d1 < calculate_distance_from_camera d2 ↔
      distSqFromCamera d1 < distSqFromCamera d2 := by
  rw [calculate_distance_from_camera, calculate_distance_from_camera,
    Real.sqrt_lt_sqrt_iff (by exact_mod_cast distSqFromCamera_nonneg d1)]
  exact_mod_cast Iff.rfl

/-! Projections of a non-busy `send_traffic_data` call. -/

theorem send_events (c : Bool) (t : ℚ) (data : List Road) (st : EmergencyState) :
    (send_traffic_data c false t data st).events =
      arbitrateAndDispatch c (updateEmergencyState t data st.active_emergencies)
        data := rfl

theorem send_state (c : Bool) (t : ℚ) (data : List Road) (st : EmergencyState) :
    (send_traffic_data c false t data st).state.active_emergencies =
      (updateEmergencyState t data st.active_emergencies).filter
        (fun p => decide (t - p.2.timestamp ≤ 10)) := rfl

theorem send_ok (c : Bool) (t : ℚ) (data : List Road) (st : EmergencyState) :
    (send_traffic_data c false t data st).ok = true := rfl

/-- C7: every record surviving a (non-busy) dispatch cycle was refreshed at
most 10 seconds before the cycle time, so a record whose refresh timestamp is
more than 10 s in the past when the cycle observes it is absent from the
active set afterwards and cannot influence the next arbitration — regardless
of the batch, the previous state, or the arbitration outcome. -/
theorem claim_C7 (c : Bool) (t : ℚ) (data : List Road) (st : EmergencyState) :
    ∀ p ∈ (send_traffic_data c false t data st).state.active_emergencies,
      t - p.2.timestamp ≤ 10 := by
  intro p hp
  rw [send_state] at hp
  simpa using List.of_mem_filter hp

/-- C3 counterexample: with the device link not connected (and the lock
free), `send_traffic_data` completes and returns true — not false as the
claim states. -/
theorem claim_C3_counterexample :
    (send_traffic_data false false 0 [⟨some 1, [], false⟩] ⟨[]⟩).ok = true := rfl

/-- C3 amended: a dispatch skipped because the non-blocking lock is held
returns false, changes no state and emits nothing; a dispatch with the
device link disconnected emits no `UPDATE` command, but returns true (each
per-lane `update_road_data` call fails silently). -/
theorem claim_C3_amended :
    (∀ (c : Bool) (t : ℚ) (data : List Road) (st : EmergencyState),
      send_traffic_data c true t data st = ⟨st, [], false⟩) ∧
    (∀ (t : ℚ) (data : List Road) (st : EmergencyState),
      (send_traffic_data false false t data st).events.filter isUpdateEvent = [] ∧
      (send_traffic_data false false t data st).ok = true) := by
  constructor
  · intro c t data st
    rfl
  · intro t data st
    refine ⟨?_, rfl⟩
    rw [send_events, arbitrateAndDispatch]
    split_ifs with h1 h2
    · rw [dispatchAll_false]
      rfl
    · exact dispatchPriority_false_no_update _ _
    · rw [dispatchAll_false]
      rfl

/-- C8: when at most one emergency record is active after the table update,
the dispatched `UPDATE` commands follow the stable sort of the batch by
emergency flag descending then vehicle count descending: the order is a
permutation of the batch, sorted by the spec relation, and entries with
equal keys keep their input order. -/
theorem claim_C8 (t : ℚ) (data : List Road) (st : EmergencyState)
    (h : (updateEmergencyState t data st.active_emergencies).length ≤ 1) :
    (send_traffic_data true false t data st).events =
      (sortLe specLe data).map updEvent ∧
    List.Perm (sortLe specLe data) data ∧
    List.Pairwise (fun a b => specLe a b = true) (sortLe specLe data) ∧
    ∀ k : Bool × Nat,
      (sortLe specLe data).filter
        (fun r => decide ((r.hasEmergencyVehicle, r.detections.length) = k)) =
      data.filter
        (fun r => decide ((r.hasEmergencyVehicle, r.detections.length) = k)) := by
  refine ⟨?_, sortLe_perm specLe data,
    sortLe_pairwise specLe specLe_total specLe_trans data, ?_⟩
  · rw [send_events, arbitrateAndDispatch, if_neg (by omega),
      sortLe_congr pyKeyLe specLe pyKeyLe_eq_specLe, dispatchAll_true]
  · intro k
    exact sortLe_filter_stable specLe
      (fun r => (r.hasEmergencyVehicle, r.detections.length))
      (fun a b hab => specLe_of_key_eq a b hab) data k

theorem mapFst_eq_pair {α : Type} (em : List (Nat × α)) (x y : Nat)
    (h : em.map Prod.fst = [x, y]) : ∃ a b, em = [(x, a), (y, b)] := by
  cases em with
  | nil => simp at h
  | cons p ps =>
    cases ps with
    | nil => simp at h
    | cons q qs =>
      cases qs with
      | nil =>
        obtain ⟨p1, p2⟩ := p
        obtain ⟨q1, q2⟩ := q
        simp at h
        obtain ⟨rfl, rfl⟩ := h
        exact ⟨p2, q2, rfl⟩
      | cons r rs => simp at h

/-- C2 amended: when the active records after the table update are exactly
lanes 1 and 3 (either order), the simultaneity rule fires and every lane of
the batch is dispatched in batch order with no priority delay — in
particular both lanes 1 and 3 whenever they appear in the batch; lanes with
active records that are absent from the batch receive no command.  For any
number of lanes other than two the simultaneity check returns false. -/
theorem claim_C2_amended :
    (∀ (t : ℚ) (data : List Road) (st : EmergencyState),
      ((updateEmergencyState t data st.active_emergencies).map Prod.fst = [1, 3] ∨
       (updateEmergencyState t data st.active_emergencies).map Prod.fst = [3, 1]) →
      (send_traffic_data true false t data st).events = data.map updEvent) ∧
    (∀ lanes : List EmergencyLane, lanes.length ≠ 2 →
      can_emergency_vehicles_cross_simultaneously lanes = false) := by
  constructor
  · intro t data st h
    rw [send_events]
    rcases h with h | h
    · obtain ⟨a, b, hab⟩ := mapFst_eq_pair _ 1 3 h
      rw [hab, arbitrateAndDispatch, if_pos (by norm_num),
        if_pos (by simp [can_emergency_vehicles_cross_simultaneously,
          emergencyLanesOf, inPair])]
      exact dispatchAll_true data
    · obtain ⟨a, b, hab⟩ := mapFst_eq_pair _ 3 1 h
      rw [hab, arbitrateAndDispatch, if_pos (by norm_num),
        if_pos (by simp [can_emergency_vehicles_cross_simultaneously,
          emergencyLanesOf, inPair])]
      exact dispatchAll_true data
  · intro lanes h
    rcases lanes with _ | ⟨a, _ | ⟨b, _ | ⟨c, ns⟩⟩⟩
    · rfl
    · rfl
    · exact absurd rfl h
    · rfl

/-- C1 amended: with exactly two active records on a conflicting pair (any
pair other than both ids in the perpendicular set), the simultaneity check
fails and exactly one lane heads the priority order — the lane whose stored
proximity score is strictly smaller; equal scores resolve deterministically
by table order, i.e. the record created earlier wins (not necessarily the
lower lane id). -/
theorem claim_C1_amended (i j : Nat) (ri rj : EmergencyRecord) (hij : i ≠ j)
    (hp : ¬(inPair i = true ∧ inPair j = true)) :
    can_emergency_vehicles_cross_simultaneously
      (emergencyLanesOf [(i, ri), (j, rj)]) = false ∧
    (prioritize_emergency_vehicles [(i, ri), (j, rj)]
      (emergencyLanesOf [(i, ri), (j, rj)])).map Prioritized.id =
      (if rj.distanceSq < ri.distanceSq then [j, i] else [i, j]) ∧
    priorityLaneOf [(i, ri), (j, rj)] =
      (if rj.distanceSq < ri.distanceSq then j else i) := by
  have hgeti : dictGet? [(i, ri), (j, rj)] i = some ri := by
    simp [dictGet?_cons]
  have hgetj : dictGet? [(i, ri), (j, rj)] j = some rj := by
    have hb : (i == j) = false := by simpa using hij
    simp [dictGet?_cons, hb]
  have hpri : prioritize_emergency_vehicles [(i, ri), (j, rj)]
      (emergencyLanesOf [(i, ri), (j, rj)]) =
      if decide (ri.distanceSq ≤ rj.distanceSq) = true
      then [⟨i, ri.distanceSq, ri.detections.length⟩,
            ⟨j, rj.distanceSq, rj.detections.length⟩]
      else [⟨j, rj.distanceSq, rj.detections.length⟩,
            ⟨i, ri.distanceSq, ri.detections.length⟩] := by
    rw [prioritize_emergency_vehicles]
    simp only [emergencyLanesOf, List.map_cons, List.map_nil, hgeti, hgetj]
    rw [sortLe_pair]
  have hcan : can_emergency_vehicles_cross_simultaneously
      (emergencyLanesOf [(i, ri), (j, rj)]) = false := by
    cases hi : inPair i <;> cases hj : inPair j <;>
      simp_all [can_emergency_vehicles_cross_simultaneously, emergencyLanesOf]
  refine ⟨hcan, ?_, ?_⟩
  · rw [hpri]
    by_cases hlt : rj.distanceSq < ri.distanceSq
    · rw [if_neg (by simp [not_le.mpr hlt]), if_pos hlt]
      rfl
    · rw [if_pos (by simp [not_lt.mp hlt]), if_neg hlt]
      rfl
  · rw [priorityLaneOf, hpri]
    by_cases hlt : rj.distanceSq < ri.distanceSq
    · rw [if_neg (by simp [not_le.mpr hlt]), if_pos hlt]
    · rw [if_pos (by simp [not_lt.mp hlt]), if_neg hlt]

/-- C10: the pixel-versus-normalized disambiguation is joint, not per
coordinate — with missing coordinates defaulted to 0.5 first, both
coordinates are used unscaled as soon as either exceeds 1, and the 640/480
scaling applies only when both are at most 1. -/
theorem claim_C10 (d : Detection) :
    ((1 < d.x.getD (1/2) ∨ 1 < d.y.getD (1/2)) →
      distSqFromCamera d =
        (d.x.getD (1/2) - 320) ^ 2 + (d.y.getD (1/2)) ^ 2) ∧
    ((d.x.getD (1/2) ≤ 1 ∧ d.y.getD (1/2) ≤ 1) →
      distSqFromCamera d =
        (640 * d.x.getD (1/2) - 320) ^ 2 + (480 * d.y.getD (1/2)) ^ 2) ∧
    (d.x = none → d.x.getD (1/2) = 1/2) ∧
    (d.y = none → d.y.getD (1/2) = 1/2) := by
  refine ⟨?_, ?_, ?_, ?_⟩
  · intro h
    rw [distSqFromCamera]
    simp only [if_pos h]
    ring
  · intro h
    have hnot : ¬(1 < d.x.getD (1/2) ∨ 1 < d.y.getD (1/2)) := by
      push_neg
      exact h
    rw [distSqFromCamera]
    simp only [if_neg hnot]
    ring
  · intro h
    rw [h]
    rfl
  · intro h
    rw [h]
    rfl

/-- C4 amended: after a cycle whose batch carries exactly one entry for lane
`L`, a record for `L` exists iff that entry reported an emergency AND held a
detection with an emergency-class label (then it is the fresh record); an
emergency entry without a matching detection leaves the previous record
(subject only to the 10 s expiry); a no-emergency entry removes the record
immediately. -/
theorem claim_C4_amended (c : Bool) (t : ℚ) (data : List Road)
    (st : EmergencyState) (L : Nat) (r : Road)
    (hnd : (dictKeys st.active_emergencies).Nodup)
    (hfil : data.filter (fun x => roadId x == L) = [r]) :
    dictGet? (send_traffic_data c false t data st).state.active_emergencies L =
      if r.hasEmergencyVehicle then
        match findEmergencyVehicle r.detections with
        | some v => some ⟨r.detections, t, distSqFromCamera v, v⟩
        | none => (dictGet? st.active_emergencies L).bind
            (fun rec => if t - rec.timestamp ≤ 10 then some rec else none)
      else none := by
  have hnd1 : (dictKeys (updateEmergencyState t data st.active_emergencies)).Nodup :=
    nodup_updateEmergencyState t data _ hnd
  have h1 : dictGet? (updateEmergencyState t data st.active_emergencies) L =
      laneCore t (dictGet? st.active_emergencies L) r := by
    rw [dictGet?_updateEmergencyState, foldl_laneStep_filter, hfil]
    rfl
  rw [send_state,
    dictGet?_filterVals (fun rec => decide (t - rec.timestamp ≤ 10)) _ hnd1,
    h1, laneCore]
  by_cases hem : r.hasEmergencyVehicle = true
  · rw [if_pos hem, if_pos hem]
    cases hfind : findEmergencyVehicle r.detections with
    | some v => norm_num
    | none =>
      cases hst : dictGet? st.active_emergencies L with
      | none => rfl
      | some rec => simp
  · rw [if_neg hem, if_neg hem]
    rfl

/-- C6 amended: a road whose batch drops to zero detections while its last
send was nonempty triggers the immediate clearing call — bypassing the 2 s
throttle — provided the emergency override is inactive and the controller is
connected; the clearing batch, once processed by `send_traffic_data`, always
enqueues exactly `Update(roadId, 0, false)`.  (When the override is active
for another lane, `detect_frame` returns before reaching the clear branch,
see the counterexample.) -/
theorem claim_C6_amended (st : FrameState) (road_id : Nat)
    (prevDets : List Detection) (now_time : ℚ)
    (hover : st.override_active = false)
    (hprev : dictGet? st.last_sent_detections road_id = some prevDets)
    (hne : prevDets ≠ [])
    (_hthrottle : now_time - (dictGet? st.last_arduino_send road_id).getD 0 < 2) :
    (detect_frame_dispatch true st road_id [] now_time).2 =
      [[⟨some road_id, [], false⟩]] ∧
    ∀ (t : ℚ) (emSt : EmergencyState),
      (send_traffic_data true false t [⟨some road_id, [], false⟩] emSt).events =
        [Event.update road_id 0 false] := by
  have hie : prevDets.isEmpty = false := by
    cases prevDets with
    | nil => exact absurd rfl hne
    | cons a as => rfl
  constructor
  · by_cases hmem : road_id ∈ st.override_lanes
    · simp [detect_frame_dispatch, frameHasEmergency, hover, hprev, hie, hmem]
    · simp [detect_frame_dispatch, frameHasEmergency, hover, hprev, hie, hmem]
  · intro t emSt
    rw [send_events, arbitrateAndDispatch]
    split_ifs with h1 h2
    · simp [dispatchAll_true, updEvent, roadId]
    · simp [dispatchPriority, update_road_data, roadId]
    · simp [sortLe, insertLe, dispatchAll_true, updEvent, roadId]

/-! Concrete inputs for counterexamples and witnesses. -/

/-- Detection at normalized (0.5, 0.9), labelled as an ambulance. -/
def detFar : Detection := ⟨some "ambulance", none, some (1/2), some (9/10), none, none⟩

/-- Detection at normalized (0.1, 0.1), labelled as an ambulance. -/
def detNear : Detection := ⟨some "ambulance", none, some (1/10), some (1/10), none, none⟩

/-- Detection already in pixel coordinates (320, 100), an ambulance. -/
def detNearPx : Detection := ⟨some "ambulance", none, some 320, some 100, none, none⟩

/-- A plain car detection. -/
def detCar : Detection := ⟨some "car", none, some (1/2), some (1/2), none, none⟩

/-- Detection with a normalized x and a pixel y, an ambulance. -/
def detMixed : Detection := ⟨some "ambulance", none, some (1/2), some 2, none, none⟩

def road1em : Road := ⟨some 1, [detFar], true⟩

def road3em : Road := ⟨some 3, [detFar], true⟩

def road4tie : Road := ⟨some 4, [detFar], true⟩

def road2tie : Road := ⟨some 2, [detFar], true⟩

def road2clear : Road := ⟨some 2, [], false⟩

def road1near : Road := ⟨some 1, [detNearPx], true⟩

def road2far : Road := ⟨some 2, [detFar], true⟩

def roadA : Road := ⟨some 1, [], false⟩

def roadB : Road := ⟨some 2, [detCar, detCar], false⟩

/-- The record `send_traffic_data` creates at time `t` for a single-detection
road whose detection `d` is the emergency vehicle. -/
def recOf (t : ℚ) (d : Detection) : EmergencyRecord := ⟨[d], t, distSqFromCamera d, d⟩

theorem dsq_detFar : distSqFromCamera detFar = 186624 := by
  norm_num [distSqFromCamera, detFar]

theorem dsq_detNear : distSqFromCamera detNear = 67840 := by
  norm_num [distSqFromCamera, detNear]

theorem dsq_detNearPx : distSqFromCamera detNearPx = 10000 := by
  norm_num [distSqFromCamera, detNearPx]

/-- C1 counterexample: one cycle creates records for lanes 4 then 2 with
equal proximity scores on a conflicting pair; the priority lane is 4 — the
record created first — not the lower lane id 2, and the dispatch trace
delays lane 2, not lane 4.  This refutes the tie rule of the claim. -/
theorem claim_C1_counterexample :
    (updateEmergencyState 0 [road4tie, road2tie]
      ([] : List (Nat × EmergencyRecord))).map Prod.fst = [4, 2] ∧
    (updateEmergencyState 0 [road4tie, road2tie]
      ([] : List (Nat × EmergencyRecord))).map (fun p => p.2.distanceSq) =
      [distSqFromCamera detFar, distSqFromCamera detFar] ∧
    ¬(inPair 4 = true ∧ inPair 2 = true) ∧
    priorityLaneOf (updateEmergencyState 0 [road4tie, road2tie]
      ([] : List (Nat × EmergencyRecord))) = 4 ∧
    (send_traffic_data true false 0 [road4tie, road2tie] ⟨[]⟩).events =
      [Event.update 4 1 true, Event.sleep (1/10), Event.update 2 1 true] := by
  have hem : updateEmergencyState 0 [road4tie, road2tie]
      ([] : List (Nat × EmergencyRecord)) =
      [(4, recOf 0 detFar), (2, recOf 0 detFar)] := rfl
  have hcan : can_emergency_vehicles_cross_simultaneously
      (emergencyLanesOf [(4, recOf 0 detFar), (2, recOf 0 detFar)]) = false := rfl
  have hprio : priorityLaneOf [(4, recOf 0 detFar), (2, recOf 0 detFar)] = 4 := by
    simp [priorityLaneOf, prioritize_emergency_vehicles, emergencyLanesOf,
      dictGet?_cons, sortLe, insertLe, recOf, dsq_detFar]
  refine ⟨rfl, rfl, by decide, hem ▸ hprio, ?_⟩
  show arbitrateAndDispatch true (updateEmergencyState 0 [road4tie, road2tie] [])
      [road4tie, road2tie] = _
  rw [hem]
  simp only [arbitrateAndDispatch, hcan, hprio]
  norm_num [dispatchPriority, update_road_data, roadId, road4tie, road2tie, detFar]

/-- C1 witness: a concrete conflicting pair with distinct scores, record for
lane 2 created first but lane 4 strictly closer — lane 4 wins. -/
theorem claim_C1_witness :
    can_emergency_vehicles_cross_simultaneously
      (emergencyLanesOf [(2, ⟨[], 0, 50, detFar⟩), (4, ⟨[], 0, 20, detFar⟩)]) =
      false ∧
    (prioritize_emergency_vehicles [(2, ⟨[], 0, 50, detFar⟩), (4, ⟨[], 0, 20, detFar⟩)]
      (emergencyLanesOf [(2, ⟨[], 0, 50, detFar⟩), (4, ⟨[], 0, 20, detFar⟩)])).map
      Prioritized.id = [4, 2] ∧
    priorityLaneOf [(2, ⟨[], 0, 50, detFar⟩), (4, ⟨[], 0, 20, detFar⟩)] = 4 := by
  have h := claim_C1_amended 2 4 ⟨[], 0, 50, detFar⟩ ⟨[], 0, 20, detFar⟩
    (by decide) (by decide)
  refine ⟨h.1, ?_, ?_⟩
  · rw [h.2.1, if_pos (by norm_num)]
  · rw [h.2.2, if_pos (by norm_num)]

/-- The state after a cycle that saw emergencies on lanes 1 and 3. -/
def st13 : EmergencyState :=
  (send_traffic_data true false 0 [road1em, road3em] ⟨[]⟩).state

/-- C2 counterexample: with active records exactly on lanes 1 and 3 but a
batch containing only lane 2, the cycle emits a single command for lane 2 —
neither emergency lane is dispatched, refuting the claim that both always
dispatch in such a cycle. -/
theorem claim_C2_counterexample :
    st13.active_emergencies.map Prod.fst = [1, 3] ∧
    (send_traffic_data true false 1 [road2clear] st13).events =
      [Event.update 2 0 false] ∧
    Event.update 1 1 true ∉ (send_traffic_data true false 1 [road2clear] st13).events ∧
    Event.update 3 1 true ∉ (send_traffic_data true false 1 [road2clear] st13).events := by
  have hst : st13.active_emergencies = [(1, recOf 0 detFar), (3, recOf 0 detFar)] := by
    show (send_traffic_data true false 0 [road1em, road3em] ⟨[]⟩).state.active_emergencies = _
    rw [send_state]
    have hupd : updateEmergencyState 0 [road1em, road3em]
        (⟨[]⟩ : EmergencyState).active_emergencies =
        [(1, recOf 0 detFar), (3, recOf 0 detFar)] := rfl
    rw [hupd]
    norm_num [recOf]
  have hupd2 : updateEmergencyState 1 [road2clear]
      [(1, recOf 0 detFar), (3, recOf 0 detFar)] =
      [(1, recOf 0 detFar), (3, recOf 0 detFar)] := rfl
  have hev : (send_traffic_data true false 1 [road2clear] st13).events =
      [Event.update 2 0 false] := by
    rw [send_events, hst, hupd2]
    have hcan : can_emergency_vehicles_cross_simultaneously
        (emergencyLanesOf [(1, recOf 0 detFar), (3, recOf 0 detFar)]) = true := rfl
    simp only [arbitrateAndDispatch, hcan]
    simp [dispatchAll_true, updEvent, roadId, road2clear]
  refine ⟨by rw [hst]; rfl, hev, ?_, ?_⟩
  · rw [hev]
    simp
  · rw [hev]
    simp

/-- C2 witness: both perpendicular lanes in the batch; the cycle dispatches
the whole batch in input order with no sleep, and the simultaneity check is
false for the empty lane list. -/
theorem claim_C2_witness :
    (updateEmergencyState 0 [road1em, road3em]
      (⟨[]⟩ : EmergencyState).active_emergencies).map Prod.fst = [1, 3] ∧
    (send_traffic_data true false 0 [road1em, road3em] ⟨[]⟩).events =
      [road1em, road3em].map updEvent ∧
    can_emergency_vehicles_cross_simultaneously [] = false :=
  ⟨rfl, claim_C2_amended.1 0 [road1em, road3em] ⟨[]⟩ (Or.inl rfl),
    claim_C2_amended.2 [] (by decide)⟩

/-- C4 counterexample: a batch entry that reports an emergency but holds no
detection with an emergency-class label creates no record, so after the
cycle no record exists for the lane even though its most recent update had
the emergency flag set — refuting the claimed iff. -/
theorem claim_C4_counterexample :
    (⟨some 2, [], true⟩ : Road).hasEmergencyVehicle = true ∧
    (send_traffic_data true false 0 [⟨some 2, [], true⟩]
      ⟨[]⟩).state.active_emergencies = [] :=
  ⟨rfl, rfl⟩

/-- C4 witness: a fresh emergency entry with a matching detection yields
exactly the fresh record. -/
theorem claim_C4_witness :
    dictGet? (send_traffic_data true false 0 [road1em] ⟨[]⟩).state.active_emergencies
      1 = some ⟨road1em.detections, 0, distSqFromCamera detFar, detFar⟩ := by
  have h := claim_C4_amended true 0 [road1em] ⟨[]⟩ 1 road1em (by decide) rfl
  rw [h]
  rfl

/-- C5: the proximity scores of the two example detections of the
specification — exactly 432 at normalized (0.5, 0.9), the square root of
256 squared plus 48 squared (between 260 and 261) at normalized (0.1, 0.1) —
and the second, being strictly closer, heads the priority order. -/
theorem claim_C5 :
    calculate_distance_from_camera detFar = 432 ∧
    calculate_distance_from_camera detNear = Real.sqrt (256 ^ 2 + 48 ^ 2) ∧
    (260 : ℝ) < calculate_distance_from_camera detNear ∧
    calculate_distance_from_camera detNear < 261 ∧
    calculate_distance_from_camera detNear < calculate_distance_from_camera detFar ∧
    priorityLaneOf [(1, recOf 0 detFar), (2, recOf 0 detNear)] = 2 := by
  have hfar : calculate_distance_from_camera detFar = 432 := by
    rw [calculate_distance_from_camera, dsq_detFar]
    rw [show ((186624 : ℚ) : ℝ) = 432 ^ 2 by norm_num]
    exact Real.sqrt_sq (by norm_num)
  have hnear : calculate_distance_from_camera detNear = Real.sqrt 67840 := by
    rw [calculate_distance_from_camera, dsq_detNear]
    norm_num
  refine ⟨hfar, ?_, ?_, ?_, ?_, ?_⟩
  · rw [hnear]
    norm_num
  · rw [hnear]
    have h260 : (260 : ℝ) = Real.sqrt (260 ^ 2) := (Real.sqrt_sq (by norm_num)).symm
    rw [h260]
    exact Real.sqrt_lt_sqrt (by norm_num) (by norm_num)
  · rw [hnear]
    have h261 : (261 : ℝ) = Real.sqrt (261 ^ 2) := (Real.sqrt_sq (by norm_num)).symm
    rw [h261]
    exact Real.sqrt_lt_sqrt (by norm_num) (by norm_num)
  · exact (calculate_distance_lt_iff detNear detFar).mpr
      (by rw [dsq_detFar, dsq_detNear]; norm_num)
  · norm_num [priorityLaneOf, prioritize_emergency_vehicles, emergencyLanesOf,
      dictGet?_cons, sortLe, insertLe, recOf, dsq_detFar, dsq_detNear]

/-- Frame state with the emergency override active for lane 1 and a
previous nonempty send for lane 2. -/
def stOver : FrameState := ⟨true, [1], [(2, 0)], [(2, [detFar])]⟩

/-- C6 counterexample: lane 2 drops from one detection to zero, but because
the override is active for lane 1, `detect_frame` returns early and no
clearing call is made at all — refuting the unconditional claim (here even
with the throttle window long elapsed). -/
theorem claim_C6_counterexample :
    dictGet? stOver.last_sent_detections 2 = some [detFar] ∧
    [detFar] ≠ ([] : List Detection) ∧
    (detect_frame_dispatch true stOver 2 [] 100).2 = [] := by
  refine ⟨rfl, by simp, rfl⟩

/-- Frame state with the override inactive, lane 7 sent 1 s ago with a
nonempty detection list. -/
def stClear : FrameState := ⟨false, [], [(7, 99)], [(7, [detFar])]⟩

/-- C6 witness: the clearing call goes out inside the throttle window and
its processed batch enqueues `Update(7, 0, false)`. -/
theorem claim_C6_witness :
    (detect_frame_dispatch true stClear 7 [] 100).2 = [[⟨some 7, [], false⟩]] ∧
    (send_traffic_data true false 5 [⟨some 7, [], false⟩] ⟨[]⟩).events =
      [Event.update 7 0 false] := by
  have h := claim_C6_amended stClear 7 [detFar] 100 rfl rfl (by simp)
    (by norm_num [stClear, dictGet?_cons])
  exact ⟨h.1, h.2 5 ⟨[]⟩⟩

/-- Emergency state holding one stale record (lane 5, 20 s old) and one
fresh record (lane 6). -/
def staleSt : EmergencyState :=
  ⟨[(5, ⟨[], -20, 0, detFar⟩), (6, ⟨[], 0, 0, detFar⟩)]⟩

/-- C7 witness: after a cycle at time 0, the fresh record is still active and
within the 10 s bound, while the stale one is gone. -/
theorem claim_C7_witness :
    (6, (⟨[], 0, 0, detFar⟩ : EmergencyRecord)) ∈
      (send_traffic_data true false 0 [] staleSt).state.active_emergencies ∧
    (0 : ℚ) - (⟨[], 0, 0, detFar⟩ : EmergencyRecord).timestamp ≤ 10 ∧
    (5, (⟨[], -20, 0, detFar⟩ : EmergencyRecord)) ∉
      (send_traffic_data true false 0 [] staleSt).state.active_emergencies := by
  have hstate : (send_traffic_data true false 0 [] staleSt).state.active_emergencies =
      [(6, ⟨[], 0, 0, detFar⟩)] := by
    rw [send_state]
    show List.filter _ staleSt.active_emergencies = _
    norm_num [staleSt]
  refine ⟨?_, ?_, ?_⟩
  · rw [hstate]
    simp
  · exact claim_C7 true 0 [] staleSt (6, ⟨[], 0, 0, detFar⟩) (by rw [hstate]; simp)
  · rw [hstate]
    simp

/-- C8 witness: a two-road batch with no emergencies is dispatched sorted by
vehicle count descending, a permutation of the batch, with stability at the
key (false, 2). -/
theorem claim_C8_witness :
    (updateEmergencyState 0 [roadA, roadB]
      (⟨[]⟩ : EmergencyState).active_emergencies).length ≤ 1 ∧
    (send_traffic_data true false 0 [roadA, roadB] ⟨[]⟩).events =
      (sortLe specLe [roadA, roadB]).map updEvent ∧
    List.Perm (sortLe specLe [roadA, roadB]) [roadA, roadB] ∧
    (sortLe specLe [roadA, roadB]).filter
      (fun r => decide ((r.hasEmergencyVehicle, r.detections.length) = (false, 2))) =
    [roadA, roadB].filter
      (fun r => decide ((r.hasEmergencyVehicle, r.detections.length) = (false, 2))) :=
  ⟨by decide, (claim_C8 0 [roadA, roadB] ⟨[]⟩ (by decide)).1,
    (claim_C8 0 [roadA, roadB] ⟨[]⟩ (by decide)).2.1,
    (claim_C8 0 [roadA, roadB] ⟨[]⟩ (by decide)).2.2.2 (false, 2)⟩

/-- The state after a cycle that saw an emergency on lane 1 at pixel
distance 100 from the camera. -/
def st9 : EmergencyState := (send_traffic_data true false 0 [road1near] ⟨[]⟩).state

/-- C9: the priority lane is chosen from the whole active-emergency table,
not from the batch: with a stored record for lane 1 (closer) and a batch
containing only lane 2 (farther), lane 1 heads the priority order although
it is absent from the batch, receives no command, and the batch emergency
lane 2 is dispatched as non-priority, after the 0.1 s delay. -/
theorem claim_C9 :
    st9.active_emergencies.map Prod.fst = [1] ∧
    priorityLaneOf (updateEmergencyState 1 [road2far] st9.active_emergencies) = 1 ∧
    1 ∉ [road2far].map roadId ∧
    (send_traffic_data true false 1 [road2far] st9).events =
      [Event.sleep (1/10), Event.update 2 1 true] := by
  have hst : st9.active_emergencies = [(1, recOf 0 detNearPx)] := by
    show (send_traffic_data true false 0 [road1near] ⟨[]⟩).state.active_emergencies = _
    rw [send_state]
    have hupd : updateEmergencyState 0 [road1near]
        (⟨[]⟩ : EmergencyState).active_emergencies = [(1, recOf 0 detNearPx)] := rfl
    rw [hupd]
    norm_num [recOf]
  have hupd2 : updateEmergencyState 1 [road2far] [(1, recOf 0 detNearPx)] =
      [(1, recOf 0 detNearPx), (2, recOf 1 detFar)] := rfl
  have hprio : priorityLaneOf [(1, recOf 0 detNearPx), (2, recOf 1 detFar)] = 1 := by
    norm_num [priorityLaneOf, prioritize_emergency_vehicles, emergencyLanesOf,
      dictGet?_cons, sortLe, insertLe, recOf, dsq_detFar, dsq_detNearPx]
  have hcan : can_emergency_vehicles_cross_simultaneously
      (emergencyLanesOf [(1, recOf 0 detNearPx), (2, recOf 1 detFar)]) = false := rfl
  refine ⟨by rw [hst]; rfl, by rw [hst, hupd2]; exact hprio, by simp [roadId, road2far], ?_⟩
  rw [send_events, hst, hupd2]
  simp only [arbitrateAndDispatch, hcan, hprio]
  norm_num [dispatchPriority, update_road_data, roadId, road2far, detFar]

/-- C10 witness: a detection with normalized x = 0.5 but pixel y = 2 takes
the pixel branch jointly — x is used unscaled although it is at most 1. -/
theorem claim_C10_witness :
    (1 < detMixed.x.getD (1/2) ∨ 1 < detMixed.y.getD (1/2)) ∧
    distSqFromCamera detMixed =
      (detMixed.x.getD (1/2) - 320) ^ 2 + (detMixed.y.getD (1/2)) ^ 2 ∧
    distSqFromCamera detMixed = ((1/2 : ℚ) - 320) ^ 2 + 2 ^ 2 := by
  have hcond : (1 < detMixed.x.getD (1/2) ∨ 1 < detMixed.y.getD (1/2)) := by
    norm_num [detMixed]
  refine ⟨hcond, (claim_C10 detMixed).1 hcond, ?_⟩
  rw [(claim_C10 detMixed).1 hcond]
  norm_num [detMixed]
